import Mathlib

/-!
Verification of the Continuity Index v2.0 toolkit (src/CIv2.py,
class ContinuityIndexToolkit).

Modelling choices for the shallow embedding:
  * finite Python float values are modelled as exact rationals;
  * the special float values nan, inf and -inf are modelled by `PyFloat`,
    whose comparison operators follow IEEE-754 semantics (every comparison
    with nan is false), which is what Python float comparisons do;
  * `math.log10` is modelled as `Real.logb 10` on the reals, and the value
    float("-inf") returned for CI = 0 as the bottom element of `EReal`;
  * a Python `ValueError` is modelled as `Except.error` carrying the exact
    message string the source raises.
-/

namespace CIv2

/-- A Python float value as seen by comparisons: nan, one of the two
infinities, or a finite value (modelled as an exact rational). -/
inductive PyFloat where
  | nan : PyFloat
  | ninf : PyFloat
  | pinf : PyFloat
  | fin (x : ℚ) : PyFloat
  deriving DecidableEq

/-- Strict less-than on Python floats (IEEE-754: any comparison involving
nan is false). -/
def PyFloat.pyLt : PyFloat → PyFloat → Bool
  | .nan, _ => false
  | _, .nan => false
  | .ninf, .ninf => false
  | .ninf, _ => true
  | _, .ninf => false
  | .pinf, _ => false
  | .fin _, .pinf => true
  | .fin x, .fin y => decide (x < y)

/-- Equality test on Python floats (nan is not equal to anything, itself
included). -/
def PyFloat.pyEq : PyFloat → PyFloat → Bool
  | .nan, _ => false
  | _, .nan => false
  | .ninf, .ninf => true
  | .pinf, .pinf => true
  | .fin x, .fin y => decide (x = y)
  | _, _ => false

/-- Non-strict less-than on Python floats. -/
def PyFloat.pyLe (a b : PyFloat) : Bool :=
  PyFloat.pyLt a b || PyFloat.pyEq a b

/-- Strict greater-than on Python floats. -/
def PyFloat.pyGt (a b : PyFloat) : Bool :=
  PyFloat.pyLt b a

/-- Non-strict greater-than on Python floats. -/
def PyFloat.pyGe (a b : PyFloat) : Bool :=
  PyFloat.pyLe b a

/-- Embedding of ContinuityIndexToolkit.classify_regime
(src/CIv2.py lines 88-105): four-band classification of log_CI. -/
def classify_regime (log_ci : PyFloat) : String :=
  if PyFloat.pyGe log_ci (.fin 4) then "super_persistent"
  else if PyFloat.pyGe log_ci (.fin 2) then "strong"
  else if PyFloat.pyGe log_ci (.fin 1) then "fragile"
  else "collapse_gravity"

/-- Embedding of ContinuityIndexToolkit.interpret_ci_minimal
(src/CIv2.py lines 67-84): three-way comparison of CI against 1, with the
defensive fallback branch of the source kept as written. -/
def interpret_ci_minimal (ci : PyFloat) : String :=
  if PyFloat.pyGt ci (.fin 1) then
    "The system is on a path to persist and potentially grow (effective continuity)."
  else if PyFloat.pyEq ci (.fin 1) then
    "The system is in a fragile equilibrium; small changes can shift it toward growth or collapse."
  else if PyFloat.pyLt ci (.fin 1) then
    "The system is at risk of collapse or extinction in expectation (continuity threshold not met)."
  else
    "Invalid CI value."

/-- Embedding of ContinuityIndexToolkit.explain_regime
(src/CIv2.py lines 107-138): calls classify_regime, then maps the label to
one fixed sentence. -/
def explain_regime (log_ci : PyFloat) : String :=
  let regime := classify_regime log_ci
  if regime = "super_persistent" then
    "System exhibits very strong continuity (super_persistent): it is structurally robust and highly likely to persist barring extreme, nonlocal shocks."
  else if regime = "strong" then
    "System has strong continuity: it is generally robust and resilient, but still worth monitoring for long-term drift or accumulating stress."
  else if regime = "fragile" then
    "System is in the fragile continuity band: continuity may hold for some time, but relatively modest shocks or parameter changes can push it toward collapse or recovery."
  else
    "System is in the collapse-gravity regime: without significant intervention to improve reproduction, fidelity, or reduce hazard/volatility, continuity is unlikely to be sustained."

/-- An argument passed to calculate_ci: either a number (an int or a finite
float, modelled as an exact rational) or a non-numeric Python object, for
which isinstance(x, (int, float)) is false. -/
inductive PyVal where
  | num (x : ℚ) : PyVal
  | nonnum (descr : String) : PyVal
  deriving DecidableEq

/-- The numeric value of an argument (0 for a non-number; calculate_ci only
reads this after validation has ruled non-numbers out). -/
def PyVal.toRat : PyVal → ℚ
  | .num x => x
  | .nonnum _ => 0

/-- One iteration of the validation loop of calculate_ci
(src/CIv2.py lines 51-55): the isinstance check first, then the sign check. -/
def checkParam : String × PyVal → Option String
  | (name, .nonnum _) => some (name ++ " must be a number.")
  | (name, .num x) => if x < 0 then some (name ++ " must be non-negative.") else none

/-- The validation loop of calculate_ci: the message of the first parameter
that fails its check, if any. -/
def firstError : List (String × PyVal) → Option String
  | [] => none
  | p :: rest =>
    match checkParam p with
    | some e => some e
    | none => firstError rest

/-- The zero-denominator message raised at src/CIv2.py line 59. -/
def denomMsg : String :=
  "Denominator (λ × d_I) cannot be zero (would cause division by zero)."

/-- Embedding of ContinuityIndexToolkit.calculate_ci
(src/CIv2.py lines 35-63): validate the four parameters in order, reject a
zero denominator, then return (CI, log_CI) with
log_CI = log10 CI when CI is positive and -inf otherwise. -/
noncomputable def calculate_ci (R f_I d_I lambda_env : PyVal) :
    Except String (ℚ × EReal) :=
  match firstError [("R", R), ("f_I", f_I), ("d_I", d_I), ("lambda_env", lambda_env)] with
  | some msg => .error msg
  | none =>
    let denominator := lambda_env.toRat * d_I.toRat
    if denominator = 0 then .error denomMsg
    else
      let ci := (R.toRat * f_I.toRat) / denominator
      .ok (ci, if 0 < ci then ((Real.logb 10 (ci : ℝ) : ℝ) : EReal) else ⊥)

/-- Whether one parameter value fails validation: a non-number, or a
negative number. -/
def PyVal.isBad : PyVal → Bool
  | .nonnum _ => true
  | .num x => decide (x < 0)

/-- The message the validation loop produces for an offending parameter:
it names the parameter, followed by the fixed reason. -/
def badMsg (name : String) : PyVal → String
  | .nonnum _ => name ++ " must be a number."
  | .num _ => name ++ " must be non-negative."

theorem checkParam_eq (n : String) (v : PyVal) :
    checkParam (n, v) = if v.isBad then some (badMsg n v) else none := by
  cases v with
  | num x =>
    by_cases h : x < 0 <;> simp [checkParam, PyVal.isBad, badMsg, h]
  | nonnum d => simp [checkParam, PyVal.isBad, badMsg]

theorem firstError_cascade (R f d l : PyVal) :
    firstError [("R", R), ("f_I", f), ("d_I", d), ("lambda_env", l)] =
      if R.isBad then some (badMsg "R" R)
      else if f.isBad then some (badMsg "f_I" f)
      else if d.isBad then some (badMsg "d_I" d)
      else if l.isBad then some (badMsg "lambda_env" l)
      else none := by
  cases hR : R.isBad <;> cases hf : f.isBad <;> cases hd : d.isBad <;> cases hl : l.isBad <;>
    simp [firstError, checkParam_eq, hR, hf, hd, hl]

theorem calc_ci_of_firstError_some (R f d l : PyVal) (msg : String)
    (h : firstError [("R", R), ("f_I", f), ("d_I", d), ("lambda_env", l)] = some msg) :
    calculate_ci R f d l = .error msg := by
  unfold calculate_ci
  rw [h]

theorem calc_ci_ok_eq (R f d l : ℚ)
    (hR : ¬ R < 0) (hf : ¬ f < 0) (hd : ¬ d < 0) (hl : ¬ l < 0)
    (hden : ¬ l * d = 0) :
    calculate_ci (.num R) (.num f) (.num d) (.num l) =
      .ok ((R * f) / (l * d),
        if 0 < (R * f) / (l * d) then
          ((Real.logb 10 (((R * f) / (l * d) : ℚ) : ℝ) : ℝ) : EReal)
        else ⊥) := by
  unfold calculate_ci
  rw [firstError_cascade]
  simp [PyVal.isBad, PyVal.toRat, hR, hf, hd, hl, hden]

theorem badMsg_names (n : String) (v : PyVal) :
    ∃ reason, badMsg n v = n ++ reason := by
  cases v
  · exact ⟨" must be non-negative.", rfl⟩
  · exact ⟨" must be a number.", rfl⟩

/-- C1: for numeric, nonnegative inputs whose denominator product is
nonzero, calculate_ci returns the pair with CI = (R * f_I) / (lambda_env * d_I)
and log_CI = log10 CI when CI > 0 (and -inf when CI = 0). -/
theorem calculate_ci_formula (R f d l : ℚ)
    (hR : 0 ≤ R) (hf : 0 ≤ f) (hd : 0 ≤ d) (hl : 0 ≤ l) (hden : l * d ≠ 0) :
    calculate_ci (.num R) (.num f) (.num d) (.num l) =
      .ok ((R * f) / (l * d),
        if 0 < (R * f) / (l * d) then
          ((Real.logb 10 (((R * f) / (l * d) : ℚ) : ℝ) : ℝ) : EReal)
        else ⊥) :=
  calc_ci_ok_eq R f d l (not_lt.mpr hR) (not_lt.mpr hf) (not_lt.mpr hd) (not_lt.mpr hl) hden

/-- C1 witness: the demo input R = 5/2, f_I = 4/5, d_I = 1/10,
lambda_env = 6/5 yields CI = 50/3 and log_CI = log10 (50/3). -/
theorem calculate_ci_formula_witness :
    calculate_ci (.num (5 / 2)) (.num (4 / 5)) (.num (1 / 10)) (.num (6 / 5)) =
      .ok (50 / 3, ((Real.logb 10 ((50 : ℝ) / 3) : ℝ) : EReal)) := by
  have h := calculate_ci_formula (5 / 2) (4 / 5) (1 / 10) (6 / 5)
    (by norm_num) (by norm_num) (by norm_num) (by norm_num) (by norm_num)
  rw [h]
  norm_num

/-- C2 counterexample: with R = -1 and d_I = 0 the denominator product
lambda_env * d_I is zero, yet calculate_ci raises the InvalidInput message
naming R, not the zero-denominator error. -/
theorem calculate_ci_divzero_cex :
    PyVal.toRat (.num 1) * PyVal.toRat (.num 0) = 0 ∧
    calculate_ci (.num (-1)) (.num 1) (.num 0) (.num 1) =
      .error "R must be non-negative." ∧
    "R must be non-negative." ≠ denomMsg :=
  ⟨by norm_num [PyVal.toRat],
   calc_ci_of_firstError_some _ _ _ _ _ (by decide),
   by decide⟩

/-- C2 (amended): for inputs that pass validation (numeric and
nonnegative), calculate_ci fails with the zero-denominator error exactly
when lambda_env * d_I = 0, equivalently when d_I = 0 or lambda_env = 0,
and no result pair is returned in that case. -/
theorem calculate_ci_divzero (R f d l : ℚ)
    (hR : 0 ≤ R) (hf : 0 ≤ f) (hd : 0 ≤ d) (hl : 0 ≤ l) :
    (calculate_ci (.num R) (.num f) (.num d) (.num l) = .error denomMsg ↔ l * d = 0) ∧
    (l * d = 0 ↔ (d = 0 ∨ l = 0)) ∧
    (l * d = 0 → ∀ p : ℚ × EReal,
      calculate_ci (.num R) (.num f) (.num d) (.num l) ≠ .ok p) := by
  have hiff : l * d = 0 ↔ (d = 0 ∨ l = 0) := by
    rw [mul_eq_zero, or_comm]
  by_cases hden : l * d = 0
  · have hrun : calculate_ci (.num R) (.num f) (.num d) (.num l) = .error denomMsg := by
      unfold calculate_ci
      rw [firstError_cascade]
      simp [PyVal.isBad, PyVal.toRat, not_lt.mpr hR, not_lt.mpr hf, not_lt.mpr hd,
        not_lt.mpr hl, hden]
    exact ⟨by simp [hrun, hden], hiff, fun _ p => by simp [hrun]⟩
  · have hrun := calc_ci_ok_eq R f d l (not_lt.mpr hR) (not_lt.mpr hf)
      (not_lt.mpr hd) (not_lt.mpr hl) hden
    exact ⟨by simp [hrun, hden], hiff, fun h0 => absurd h0 hden⟩

/-- C2 witness: the spec example R = 1, f_I = 1, d_I = 0, lambda_env = 5
raises the zero-denominator error. -/
theorem calculate_ci_divzero_witness :
    calculate_ci (.num 1) (.num 1) (.num 0) (.num 5) = .error denomMsg :=
  (calculate_ci_divzero 1 1 0 5 (by norm_num) (by norm_num) (by norm_num)
    (by norm_num)).1.mpr (by norm_num)

/-- C3: whenever one of the four parameters is not a number or is
negative, calculate_ci raises the validation message of an offending
parameter, and that message starts with the parameter name. -/
theorem calculate_ci_invalid_input (R f d l : PyVal)
    (h : R.isBad = true ∨ f.isBad = true ∨ d.isBad = true ∨ l.isBad = true) :
    ∃ name v, (name, v) ∈ [("R", R), ("f_I", f), ("d_I", d), ("lambda_env", l)] ∧
      v.isBad = true ∧
      calculate_ci R f d l = .error (badMsg name v) ∧
      ∃ reason, badMsg name v = name ++ reason := by
  by_cases hR : R.isBad = true
  · refine ⟨"R", R, by simp, hR, calc_ci_of_firstError_some _ _ _ _ _ ?_, badMsg_names _ _⟩
    rw [firstError_cascade]
    simp [hR]
  · have hR0 : R.isBad = false := by simpa using hR
    by_cases hf : f.isBad = true
    · refine ⟨"f_I", f, by simp, hf, calc_ci_of_firstError_some _ _ _ _ _ ?_, badMsg_names _ _⟩
      rw [firstError_cascade]
      simp [hR0, hf]
    · have hf0 : f.isBad = false := by simpa using hf
      by_cases hd : d.isBad = true
      · refine ⟨"d_I", d, by simp, hd, calc_ci_of_firstError_some _ _ _ _ _ ?_, badMsg_names _ _⟩
        rw [firstError_cascade]
        simp [hR0, hf0, hd]
      · have hd0 : d.isBad = false := by simpa using hd
        have hl : l.isBad = true := by
          rcases h with h | h | h | h
          · exact absurd h hR
          · exact absurd h hf
          · exact absurd h hd
          · exact h
        refine ⟨"lambda_env", l, by simp, hl, calc_ci_of_firstError_some _ _ _ _ _ ?_, badMsg_names _ _⟩
        rw [firstError_cascade]
        simp [hR0, hf0, hd0, hl]

/-- C3 witness: R = -1 raises the message naming R, and it is exactly
the non-negativity message for R. -/
theorem calculate_ci_invalid_input_witness :
    (∃ name v, (name, v) ∈ [("R", PyVal.num (-1)), ("f_I", PyVal.num 1),
        ("d_I", PyVal.num 1), ("lambda_env", PyVal.num 1)] ∧
      v.isBad = true ∧
      calculate_ci (.num (-1)) (.num 1) (.num 1) (.num 1) = .error (badMsg name v) ∧
      ∃ reason, badMsg name v = name ++ reason) ∧
    calculate_ci (.num (-1)) (.num 1) (.num 1) (.num 1) =
      .error "R must be non-negative." :=
  ⟨calculate_ci_invalid_input _ _ _ _ (Or.inl (by decide)),
   calc_ci_of_firstError_some _ _ _ _ _ (by decide)⟩

/-- C9: with at least one invalid parameter, the error raised is the
validation message of the first offending field in the order R, f_I, d_I,
lambda_env (for each field, a non-number gets the type message, a negative
number the sign message), and it is never the zero-denominator error. -/
theorem calculate_ci_validation_order (R f d l : PyVal)
    (h : R.isBad = true ∨ f.isBad = true ∨ d.isBad = true ∨ l.isBad = true) :
    calculate_ci R f d l =
      .error (if R.isBad then badMsg "R" R
        else if f.isBad then badMsg "f_I" f
        else if d.isBad then badMsg "d_I" d
        else badMsg "lambda_env" l) ∧
    calculate_ci R f d l ≠ .error denomMsg := by
  have key : ∀ (n : String) (v : PyVal),
      n = "R" ∨ n = "f_I" ∨ n = "d_I" ∨ n = "lambda_env" → badMsg n v ≠ denomMsg := by
    intro n v hn
    cases v <;> rcases hn with h | h | h | h <;> subst h <;> simp only [badMsg] <;> decide
  have hmsg : firstError [("R", R), ("f_I", f), ("d_I", d), ("lambda_env", l)] =
      some (if R.isBad then badMsg "R" R
        else if f.isBad then badMsg "f_I" f
        else if d.isBad then badMsg "d_I" d
        else badMsg "lambda_env" l) := by
    rw [firstError_cascade]
    cases hR : R.isBad <;> cases hf : f.isBad <;> cases hd : d.isBad <;> cases hl : l.isBad <;>
      simp_all
  have hne : (if R.isBad then badMsg "R" R
      else if f.isBad then badMsg "f_I" f
      else if d.isBad then badMsg "d_I" d
      else badMsg "lambda_env" l) ≠ denomMsg := by
    split_ifs
    · exact key "R" R (Or.inl rfl)
    · exact key "f_I" f (Or.inr (Or.inl rfl))
    · exact key "d_I" d (Or.inr (Or.inr (Or.inl rfl)))
    · exact key "lambda_env" l (Or.inr (Or.inr (Or.inr rfl)))
  refine ⟨calc_ci_of_firstError_some _ _ _ _ _ hmsg, ?_⟩
  rw [calc_ci_of_firstError_some _ _ _ _ _ hmsg]
  simp [hne]

/-- C9 witness: with R = -1 and d_I = 0 violated together, the error is
the one naming R, and not the zero-denominator error. -/
theorem calculate_ci_validation_order_witness :
    calculate_ci (.num (-1)) (.num 1) (.num 0) (.num 1) =
      .error (if (PyVal.num (-1)).isBad then badMsg "R" (.num (-1))
        else if (PyVal.num 1).isBad then badMsg "f_I" (.num 1)
        else if (PyVal.num 0).isBad then badMsg "d_I" (.num 0)
        else badMsg "lambda_env" (.num 1)) ∧
    calculate_ci (.num (-1)) (.num 1) (.num 0) (.num 1) ≠ .error denomMsg :=
  calculate_ci_validation_order _ _ _ _ (Or.inl (by decide))

theorem pyGe_fin_fin (x y : ℚ) : PyFloat.pyGe (.fin x) (.fin y) = decide (y ≤ x) := by
  simp only [PyFloat.pyGe, PyFloat.pyLe, PyFloat.pyLt, PyFloat.pyEq]
  by_cases h : y ≤ x
  · rcases lt_or_eq_of_le h with h1 | h1 <;> simp [h, h1]
  · have h1 : ¬ y < x := fun hc => h hc.le
    have h2 : ¬ y = x := fun hc => h hc.le
    simp [h, h1, h2]

theorem classify_fin (q : ℚ) :
    (classify_regime (.fin q) = "super_persistent" ↔ 4 ≤ q) ∧
    (classify_regime (.fin q) = "strong" ↔ 2 ≤ q ∧ q < 4) ∧
    (classify_regime (.fin q) = "fragile" ↔ 1 ≤ q ∧ q < 2) ∧
    (classify_regime (.fin q) = "collapse_gravity" ↔ q < 1) := by
  simp only [classify_regime, pyGe_fin_fin]
  rcases lt_or_le q 1 with h1 | h1
  · have n4 : ¬ (4 : ℚ) ≤ q := by intro hc; linarith
    have n2 : ¬ (2 : ℚ) ≤ q := by intro hc; linarith
    have n1 : ¬ (1 : ℚ) ≤ q := by intro hc; linarith
    simp [n4, n2, n1, h1]
  · rcases lt_or_le q 2 with h2 | h2
    · have n4 : ¬ (4 : ℚ) ≤ q := by intro hc; linarith
      have n2 : ¬ (2 : ℚ) ≤ q := by intro hc; linarith
      simp [n4, n2, h1, h2]
    · rcases lt_or_le q 4 with h4 | h4
      · have n4 : ¬ (4 : ℚ) ≤ q := by intro hc; linarith
        have n2 : ¬ q < 2 := by intro hc; linarith
        have n1 : ¬ q < 1 := by intro hc; linarith
        simp [n4, h2, h4, n2, n1]
      · have m4 : ¬ q < 4 := by intro hc; linarith
        have m2 : ¬ q < 2 := by intro hc; linarith
        have m1 : ¬ q < 1 := by intro hc; linarith
        simp [h4, m4, m2, m1]

/-- C4: classify_regime is total, with right-open bands evaluated in
descending order and non-strict lower bounds: super_persistent iff
log_ci is at least 4, strong iff in [2, 4), fragile iff in [1, 2),
collapse_gravity iff below 1 (including -inf); the boundary inputs 4,
3.999999, 1 and 0.999999 land as the spec says. -/
theorem classify_regime_bands :
    (∀ q : ℚ,
      (classify_regime (.fin q) = "super_persistent" ↔ 4 ≤ q) ∧
      (classify_regime (.fin q) = "strong" ↔ 2 ≤ q ∧ q < 4) ∧
      (classify_regime (.fin q) = "fragile" ↔ 1 ≤ q ∧ q < 2) ∧
      (classify_regime (.fin q) = "collapse_gravity" ↔ q < 1)) ∧
    classify_regime .ninf = "collapse_gravity" ∧
    classify_regime .pinf = "super_persistent" ∧
    classify_regime (.fin 4) = "super_persistent" ∧
    classify_regime (.fin (3999999 / 1000000)) = "strong" ∧
    classify_regime (.fin 1) = "fragile" ∧
    classify_regime (.fin (999999 / 1000000)) = "collapse_gravity" :=
  ⟨classify_fin, by decide, by decide, by decide,
   (classify_fin _).2.1.mpr (by norm_num), by decide,
   (classify_fin _).2.2.2.mpr (by norm_num)⟩

/-- C4 witness: a value of 5 is classified super_persistent by the
first band. -/
theorem classify_regime_bands_witness :
    classify_regime (.fin 5) = "super_persistent" :=
  (classify_regime_bands.1 5).1.mpr (by norm_num)

theorem toRat_nonneg_of_not_bad (v : PyVal) (h : v.isBad = false) : 0 ≤ v.toRat := by
  cases v with
  | num x =>
    simp only [PyVal.isBad, decide_eq_false_iff_not, not_lt] at h
    simpa [PyVal.toRat] using h
  | nonnum d => simp [PyVal.isBad] at h

/-- C5: every successful calculate_ci call returns a consistent pair:
CI is nonnegative, log_CI = log10 CI when CI > 0, and log_CI = -inf when
CI = 0; in particular R = 0 or f_I = 0 with a nonzero denominator gives
the pair (0, -inf), and classify_regime maps -inf to collapse_gravity. -/
theorem calculate_ci_pair_consistent :
    (∀ R f d l : PyVal, ∀ ci : ℚ, ∀ logci : EReal,
      calculate_ci R f d l = .ok (ci, logci) →
        0 ≤ ci ∧
        (0 < ci → logci = ((Real.logb 10 (ci : ℝ) : ℝ) : EReal)) ∧
        (ci = 0 → logci = ⊥)) ∧
    (∀ Rq fq dq lq : ℚ, 0 ≤ Rq → 0 ≤ fq → 0 ≤ dq → 0 ≤ lq → lq * dq ≠ 0 →
      (Rq = 0 ∨ fq = 0) →
      calculate_ci (.num Rq) (.num fq) (.num dq) (.num lq) = .ok (0, ⊥)) ∧
    classify_regime .ninf = "collapse_gravity" := by
  refine ⟨?_, ?_, by decide⟩
  · intro R f d l ci logci h
    unfold calculate_ci at h
    rw [firstError_cascade] at h
    have hR : R.isBad = false := by
      cases hR : R.isBad
      · rfl
      · rw [hR] at h; simp at h
    rw [hR] at h
    have hf : f.isBad = false := by
      cases hf : f.isBad
      · rfl
      · rw [hf] at h; simp at h
    rw [hf] at h
    have hd : d.isBad = false := by
      cases hd : d.isBad
      · rfl
      · rw [hd] at h; simp at h
    rw [hd] at h
    have hl : l.isBad = false := by
      cases hl : l.isBad
      · rfl
      · rw [hl] at h; simp at h
    rw [hl] at h
    simp only [Bool.false_eq_true, if_false] at h
    by_cases hden : l.toRat * d.toRat = 0
    · simp [hden] at h
    · simp only [hden, if_false] at h
      simp only [Except.ok.injEq, Prod.mk.injEq] at h
      obtain ⟨hci, hlog⟩ := h
      have hdpos : 0 < l.toRat * d.toRat :=
        lt_of_le_of_ne
          (mul_nonneg (toRat_nonneg_of_not_bad l hl) (toRat_nonneg_of_not_bad d hd))
          (Ne.symm hden)
      have hnum : 0 ≤ R.toRat * f.toRat :=
        mul_nonneg (toRat_nonneg_of_not_bad R hR) (toRat_nonneg_of_not_bad f hf)
      have hci0 : 0 ≤ ci := by
        rw [← hci]; exact div_nonneg hnum hdpos.le
      refine ⟨hci0, fun hpos => ?_, fun hz => ?_⟩
      · rw [← hlog, hci, if_pos hpos]
      · rw [← hlog, hci, hz]
        simp
  · intro Rq fq dq lq hR hf hd hl hden h0
    have hnum : Rq * fq = 0 := by rcases h0 with h0 | h0 <;> simp [h0]
    rw [calc_ci_ok_eq Rq fq dq lq (not_lt.mpr hR) (not_lt.mpr hf)
      (not_lt.mpr hd) (not_lt.mpr hl) hden]
    rw [hnum]
    simp

/-- C5 witness: R = 0 with all other inputs 1 returns the pair (0, -inf). -/
theorem calculate_ci_pair_consistent_witness :
    calculate_ci (.num 0) (.num 1) (.num 1) (.num 1) = .ok (0, ⊥) :=
  calculate_ci_pair_consistent.2.1 0 1 1 1 (by norm_num) (by norm_num)
    (by norm_num) (by norm_num) (by norm_num) (Or.inl rfl)

theorem interpret_fin_gt (q : ℚ) (h : 1 < q) :
    interpret_ci_minimal (.fin q) =
      "The system is on a path to persist and potentially grow (effective continuity)." := by
  have hgt : PyFloat.pyGt (.fin q) (.fin 1) = true := by
    simp [PyFloat.pyGt, PyFloat.pyLt, h]
  simp [interpret_ci_minimal, hgt]

theorem interpret_fin_one :
    interpret_ci_minimal (.fin 1) =
      "The system is in a fragile equilibrium; small changes can shift it toward growth or collapse." := by
  decide

theorem interpret_fin_lt (q : ℚ) (h : q < 1) :
    interpret_ci_minimal (.fin q) =
      "The system is at risk of collapse or extinction in expectation (continuity threshold not met)." := by
  have hgt : PyFloat.pyGt (.fin q) (.fin 1) = false := by
    simp only [PyFloat.pyGt, PyFloat.pyLt, decide_eq_false_iff_not]
    intro hc; linarith
  have heq : PyFloat.pyEq (.fin q) (.fin 1) = false := by
    simp only [PyFloat.pyEq, decide_eq_false_iff_not]
    intro hc; rw [hc] at h; exact absurd h (lt_irrefl 1)
  have hlt : PyFloat.pyLt (.fin q) (.fin 1) = true := by
    simp [PyFloat.pyLt, h]
  simp [interpret_ci_minimal, hgt, heq, hlt]

/-- C6: interpret_ci_minimal is a three-way comparison of CI against the
literal 1 — strictly above gives the continuity-effective message, equality
the fragile-equilibrium message, strictly below the collapse-risk message —
and the three messages are pairwise distinct. -/
theorem interpret_ci_minimal_threshold :
    (∀ q : ℚ,
      (1 < q → interpret_ci_minimal (.fin q) =
        "The system is on a path to persist and potentially grow (effective continuity).") ∧
      (q = 1 → interpret_ci_minimal (.fin q) =
        "The system is in a fragile equilibrium; small changes can shift it toward growth or collapse.") ∧
      (q < 1 → interpret_ci_minimal (.fin q) =
        "The system is at risk of collapse or extinction in expectation (continuity threshold not met).")) ∧
    interpret_ci_minimal .pinf =
      "The system is on a path to persist and potentially grow (effective continuity)." ∧
    interpret_ci_minimal .ninf =
      "The system is at risk of collapse or extinction in expectation (continuity threshold not met)." ∧
    "The system is on a path to persist and potentially grow (effective continuity)." ≠
      "The system is in a fragile equilibrium; small changes can shift it toward growth or collapse." ∧
    "The system is on a path to persist and potentially grow (effective continuity)." ≠
      "The system is at risk of collapse or extinction in expectation (continuity threshold not met)." ∧
    "The system is in a fragile equilibrium; small changes can shift it toward growth or collapse." ≠
      "The system is at risk of collapse or extinction in expectation (continuity threshold not met)." := by
  refine ⟨?_, by decide, by decide, by decide, by decide, by decide⟩
  intro q
  refine ⟨fun h => interpret_fin_gt q h, fun h => ?_, fun h => interpret_fin_lt q h⟩
  rw [h]
  exact interpret_fin_one

/-- C6 witness: interpret_ci_minimal at exactly 1 takes the equality
branch with the fragile-equilibrium message. -/
theorem interpret_ci_minimal_threshold_witness :
    interpret_ci_minimal (.fin 1) =
      "The system is in a fragile equilibrium; small changes can shift it toward growth or collapse." :=
  (interpret_ci_minimal_threshold.1 1).2.1 rfl

/-- C7: the output of explain_regime is fully determined by the regime
label classify_regime produces, and each of the four labels maps to one
fixed static sentence. -/
theorem explain_regime_determined :
    (∀ x y : PyFloat,
      classify_regime x = classify_regime y → explain_regime x = explain_regime y) ∧
    (∀ x : PyFloat,
      (classify_regime x = "super_persistent" → explain_regime x =
        "System exhibits very strong continuity (super_persistent): it is structurally robust and highly likely to persist barring extreme, nonlocal shocks.") ∧
      (classify_regime x = "strong" → explain_regime x =
        "System has strong continuity: it is generally robust and resilient, but still worth monitoring for long-term drift or accumulating stress.") ∧
      (classify_regime x = "fragile" → explain_regime x =
        "System is in the fragile continuity band: continuity may hold for some time, but relatively modest shocks or parameter changes can push it toward collapse or recovery.") ∧
      (classify_regime x = "collapse_gravity" → explain_regime x =
        "System is in the collapse-gravity regime: without significant intervention to improve reproduction, fidelity, or reduce hazard/volatility, continuity is unlikely to be sustained.")) := by
  constructor
  · intro x y h
    simp [explain_regime, h]
  · intro x
    exact ⟨fun h => by simp [explain_regime, h],
      fun h => by simp [explain_regime, h],
      fun h => by simp [explain_regime, h],
      fun h => by simp [explain_regime, h]⟩

/-- C7 witness: a finite value of 0 and -inf classify alike, so their
explanations agree. -/
theorem explain_regime_determined_witness :
    explain_regime (.fin 0) = explain_regime .ninf :=
  explain_regime_determined.1 (.fin 0) .ninf (by decide)

/-- C8: on a CI produced by a successful calculate_ci call,
interpret_ci_minimal takes one of the three comparison branches and never
the fallback; the fallback message is returned exactly for a standalone
nan argument. -/
theorem interpret_fallback_unreachable :
    (∀ R f d l : PyVal, ∀ ci : ℚ, ∀ logci : EReal,
      calculate_ci R f d l = .ok (ci, logci) →
        interpret_ci_minimal (.fin ci) ≠ "Invalid CI value." ∧
        (interpret_ci_minimal (.fin ci) =
            "The system is on a path to persist and potentially grow (effective continuity)." ∨
         interpret_ci_minimal (.fin ci) =
            "The system is in a fragile equilibrium; small changes can shift it toward growth or collapse." ∨
         interpret_ci_minimal (.fin ci) =
            "The system is at risk of collapse or extinction in expectation (continuity threshold not met).")) ∧
    (∀ x : PyFloat, interpret_ci_minimal x = "Invalid CI value." ↔ x = .nan) := by
  have branch : ∀ q : ℚ,
      interpret_ci_minimal (.fin q) =
          "The system is on a path to persist and potentially grow (effective continuity)." ∨
      interpret_ci_minimal (.fin q) =
          "The system is in a fragile equilibrium; small changes can shift it toward growth or collapse." ∨
      interpret_ci_minimal (.fin q) =
          "The system is at risk of collapse or extinction in expectation (continuity threshold not met)." := by
    intro q
    rcases lt_trichotomy q 1 with h | h | h
    · exact Or.inr (Or.inr (interpret_fin_lt q h))
    · exact Or.inr (Or.inl (by rw [h]; exact interpret_fin_one))
    · exact Or.inl (interpret_fin_gt q h)
  constructor
  · intro R f d l ci logci _
    refine ⟨?_, branch ci⟩
    rcases branch ci with h | h | h <;> rw [h] <;> decide
  · intro x
    cases x with
    | nan => decide
    | ninf => decide
    | pinf => decide
    | fin q =>
      constructor
      · intro hc
        rcases branch q with h | h | h <;> rw [h] at hc <;> exact absurd hc (by decide)
      · intro hc
        exact absurd hc (by simp)

/-- C8 witness: the demo CI value 50/3 does not hit the fallback branch. -/
theorem interpret_fallback_unreachable_witness :
    interpret_ci_minimal (.fin (50 / 3)) ≠ "Invalid CI value." := by
  have h : calculate_ci (.num (5 / 2)) (.num (4 / 5)) (.num (1 / 10)) (.num (6 / 5)) =
      .ok (50 / 3, ((Real.logb 10 ((50 : ℝ) / 3) : ℝ) : EReal)) := by
    rw [calc_ci_ok_eq (5 / 2) (4 / 5) (1 / 10) (6 / 5) (by norm_num) (by norm_num)
      (by norm_num) (by norm_num) (by norm_num)]
    norm_num
  exact ((interpret_fallback_unreachable.1 _ _ _ _ _ _ h).1)

/-- C10: every band comparison of nan against the thresholds 4, 2 and 1 is
false, so classify_regime sends a nan argument to the catch-all
collapse_gravity branch, and explain_regime still returns the fixed
collapse sentence rather than failing. -/
theorem classify_regime_nan :
    PyFloat.pyGe .nan (.fin 4) = false ∧
    PyFloat.pyGe .nan (.fin 2) = false ∧
    PyFloat.pyGe .nan (.fin 1) = false ∧
    classify_regime .nan = "collapse_gravity" ∧
    explain_regime .nan =
      "System is in the collapse-gravity regime: without significant intervention to improve reproduction, fidelity, or reduce hazard/volatility, continuity is unlikely to be sustained." := by
  refine ⟨rfl, rfl, rfl, rfl, ?_⟩
  have hc : classify_regime .nan = "collapse_gravity" := rfl
  simp [explain_regime, hc]

end CIv2
